import Mathlib

/-!
Verification of src/Code/crowdbike_nonGUI.py (Meteobike, non-GUI crowdbike
logger) against its natural-language specification.

Embedding conventions: machine reals are modelled by exact rationals;
Python round(x, d) is modelled by decimal rounding with ties to even;
the np.nan missing sentinel is modelled by Option.none; an uncaught Python
exception inside one iteration of the sampling loop is modelled by
Option.none as the result of the whole cycle (the loop, and hence the run,
ends there).  Sensor and GPS hardware reads are inputs supplied to each
cycle.  The GPS thread updates its fields concurrently in the source; the
embedding gives every cycle one fixed snapshot of those fields.
-/

namespace Crowdbike

/-- Round a rational to the nearest integer with ties to even, the model of
Python rounding after scaling by a power of ten. -/
def roundHalfEven (x : ℚ) : ℤ :=
  let n := ⌊x⌋
  let r := x - (n : ℚ)
  if r < 1/2 then n
  else if 1/2 < r then n + 1
  else if n % 2 = 0 then n else n + 1

/-- Model of Python round(x, d) on exact rationals. -/
def pround (d : ℕ) (x : ℚ) : ℚ :=
  (roundHalfEven (x * (10 : ℚ) ^ d) : ℚ) / (10 : ℚ) ^ d

/-- Snapshot of the GPS thread state (FUN.GPS) as read by main: the flag at
line 130 and the fields at lines 180-184 of crowdbike_nonGUI.py. -/
structure Fix where
  has_fix : Bool
  timestamp : ℚ
  alt : ℚ
  latitude : ℚ
  longitude : ℚ
  speed : ℚ

/-- Successful result of read_dht22 at line 136: the dictionary with the
humidity and temperature entries used at lines 141-142. -/
structure DhtReading where
  temperature : ℚ
  humidity : ℚ

/-- Successful result of nova_pm.read_pm at line 169: the dictionary with
the PM2_5 and PM10 entries used at lines 170-171. -/
structure PmReading where
  pm2_5 : ℚ
  pm10 : ℚ

/-- Calibration coefficients loaded at lines 63-66. -/
structure Calib where
  temperature_cal_a1 : ℚ
  temperature_cal_a0 : ℚ
  hum_cal_a1 : ℚ
  hum_cal_a0 : ℚ

/-- Configuration and identity values loaded at lines 50-52 and 103-104. -/
structure Config where
  raspberryid : ℕ
  mac : String
  pm_status : Bool
  sampling_rate : ℚ

/-- External inputs consumed by one iteration of the while loop in main:
the wall clock read at line 129, the GPS snapshot, the result of the DHT22
read (none when read_dht22 raised) and the result of the PM read (none when
read_pm raised; ignored when the PM sensor is disabled). -/
structure CycleEnv where
  now : ℚ
  fix : Fix
  dht : Option DhtReading
  pm : Option PmReading

/-- One row of the log file, the dictionary built at lines 190-207 with the
column names of lines 75-92.  The pm fields are Option valued because the
source stores np.nan in them when the PM sensor is disabled. -/
structure Record where
  id : ℕ
  record : ℕ
  raspberry_time : ℚ
  gps_time : ℚ
  altitude : ℚ
  latitude : ℚ
  longitude : ℚ
  speed : ℚ
  temperature : ℚ
  temperature_raw : ℚ
  rel_humidity : ℚ
  rel_humidity_raw : ℚ
  vapour_pressure : ℚ
  pm10 : Option ℚ
  pm2_5 : Option ℚ
  mac : String

/-- Modelled from the spec: FUN.vappressure is not under src/; section 4.3
of the spec gives vapor_pressure(relative_humidity, saturation_pressure) =
relative_humidity / 100 * saturation_pressure. -/
def vappressure (relative_humidity saturation_pressure : ℚ) : ℚ :=
  relative_humidity / 100 * saturation_pressure

/-- Specification-side statement of the temperature calibration, written
from the spec words calibrate_temperature(raw, a0, a1) = raw / a1 - a0, to
be compared with the inline computation at lines 146-150 of the source. -/
def calibrate_temperature (raw a0 a1 : ℚ) : ℚ :=
  raw / a1 - a0

/-- Record assembly of one successful cycle, lines 141-207 of the source.
FUN.sat_vappressure is not under src/, so the saturation vapor pressure
formula stays abstract as the function argument svp.  The rebinding of
dht22_humidity before the record is built mirrors the clamp at source
lines 176-177; nothing after that point reads the rebound name, so the
clamp reaches no stored field. -/
def buildRecord (svp : ℚ → ℚ) (cfg : Config) (cal : Calib) (e : CycleEnv)
    (d : DhtReading) (pm2_5 pm10 : Option ℚ) (counter : ℕ) : Record :=
  let dht22_humidity : ℚ := d.humidity
  let dht22_temperature : ℚ := d.temperature
  let dht22_temperature_raw := pround 5 dht22_temperature
  let dht22_temperature_calib :=
    pround 3 (dht22_temperature / cal.temperature_cal_a1 - cal.temperature_cal_a0)
  let dht22_humidity_raw := pround 5 dht22_humidity
  let dht22_humidity_calib :=
    pround 3 (dht22_humidity / cal.hum_cal_a1 - cal.hum_cal_a0)
  let saturation_vappress := svp dht22_temperature_calib
  let dht22_vappress := pround 5 (vappressure dht22_humidity_calib saturation_vappress)
  let dht22_humidity := if dht22_humidity > 100 then (100 : ℚ) else dht22_humidity
  { id := cfg.raspberryid
    record := counter
    raspberry_time := e.now
    gps_time := e.fix.timestamp
    altitude := e.fix.alt
    latitude := e.fix.latitude
    longitude := e.fix.longitude
    speed := pround 2 (e.fix.speed * (1.852 : ℚ))
    temperature := dht22_temperature_calib
    temperature_raw := dht22_temperature_raw
    rel_humidity := dht22_humidity_calib
    rel_humidity_raw := dht22_humidity_raw
    vapour_pressure := dht22_vappress
    pm10 := pm10
    pm2_5 := pm2_5
    mac := cfg.mac }

/-- One iteration of the while loop in main (lines 128-219), up to and
including the counter increment.  Result none models an uncaught exception
ending the run: when read_dht22 raises, the except block at lines 137-139
assigns nan, but line 141 then evaluates readings, which is either unbound
(first cycle, NameError) or the previous cycle record dictionary, which has
no humidity key (KeyError); when the PM sensor is enabled and read_pm
raises, line 169 has no handler at all.  When has_fix is false the whole
body is skipped and only the counter advances. -/
def cycleStep (svp : ℚ → ℚ) (cfg : Config) (cal : Calib) (e : CycleEnv)
    (counter : ℕ) : Option (Option Record × ℕ) :=
  if e.fix.has_fix then
    match e.dht with
    | none => none
    | some d =>
      if cfg.pm_status then
        match e.pm with
        | none => none
        | some p =>
          some (some (buildRecord svp cfg cal e d (some p.pm2_5) (some p.pm10) counter),
                counter + 1)
      else
        some (some (buildRecord svp cfg cal e d none none counter), counter + 1)
  else
    some (none, counter + 1)

/-- The sampling loop over a finite list of per-cycle inputs, collecting
the emitted records in order.  A crashed cycle ends the run. -/
def runFrom (svp : ℚ → ℚ) (cfg : Config) (cal : Calib) :
    List CycleEnv → ℕ → List Record
  | [], _ => []
  | e :: es, c =>
    match cycleStep svp cfg cal e c with
    | none => []
    | some (none, c2) => runFrom svp cfg cal es c2
    | some (some r, c2) => r :: runFrom svp cfg cal es c2

/-- A whole run started with the module initialisation counter = 1 of
line 102. -/
def runMeteobike (svp : ℚ → ℚ) (cfg : Config) (cal : Calib)
    (envs : List CycleEnv) : List Record :=
  runFrom svp cfg cal envs 1

/-- The scheduler tail of each iteration, lines 213-221: offset is the
elapsed cycle time, clamped from above by the sampling rate, and the sleep
argument is sampling_rate - offset. -/
def sleepDuration (sampling_rate elapsed : ℚ) : ℚ :=
  let offset := if elapsed > sampling_rate then sampling_rate else elapsed
  sampling_rate - offset

/-- One line of the CSV log file: the header written by writeheader at
line 98, or one data row written by writerow at line 210. -/
inductive Row where
  | header : Row
  | data : Record → Row

/-- Test for the header line. -/
def isHeaderRow : Row → Bool
  | Row.header => true
  | Row.data _ => false

/-- Module bootstrap of the log file, lines 94-99: if the file does not
exist (none), open it in append mode, write the header once and close;
an existing file is left untouched. -/
def bootstrapFile : Option (List Row) → Option (List Row)
  | none => some [Row.header]
  | some rows => some rows

/-- One per-cycle append, lines 131-132 and 209-211: open the same file in
append mode (creating it when absent), write exactly one data row and
close. -/
def appendRecord (r : Record) : Option (List Row) → Option (List Row)
  | none => some [Row.data r]
  | some rows => some (rows ++ [Row.data r])

/-- File contents after appending the records of a run, one per cycle. -/
def runSink (recs : List Record) (file : Option (List Row)) :
    Option (List Row) :=
  recs.foldl (fun fs r => appendRecord r fs) file

/-- State of the module level name f referenced by the global declaration
in exit_program: after the bootstrap of lines 94-99 it is either unbound
(the file already existed, so line 96 never ran and closing raises
NameError) or bound to the already closed header handle. -/
inductive ModF where
  | unbound : ModF
  | closed : ModF

/-- Process state visible to the signal handler: the GPS thread flags, the
module level name f, whether the per-cycle handle opened at line 131 by
main (a local variable of main, not the module f) is currently open, and
the rows persisted so far. -/
structure ProcState where
  gpsRunning : Bool
  gpsJoined : Bool
  moduleF : ModF
  loopFileOpen : Bool
  fileRows : List Row

/-- Closing the module level f: a NameError when the name is unbound, a
successful no-op when it holds the already closed header handle (Python
close is idempotent). -/
def closeModuleF : ModF → Except String Unit
  | ModF.unbound => Except.error "NameError"
  | ModF.closed => Except.ok ()

/-- The SIGTERM handler exit_program, lines 107-117, registered at
line 224: stop the GPS thread, join it, try to close the module level f
swallowing any exception, and exit with status 0.  It writes nothing and
does not touch the per-cycle handle local to main. -/
def exit_program (s : ProcState) : ProcState × ℕ :=
  let s1 : ProcState := { s with gpsRunning := false, gpsJoined := true }
  let s2 : ProcState :=
    match closeModuleF s1.moduleF with
    | Except.ok _ => s1
    | Except.error _ => s1
  (s2, 0)

/-- Arbitrary saturation vapor pressure function for concrete runs. -/
def svp0 : ℚ → ℚ := fun t => t

/-- Identity calibration coefficients for concrete runs. -/
def cal0 : Calib :=
  { temperature_cal_a1 := 1, temperature_cal_a0 := 0
    hum_cal_a1 := 1, hum_cal_a0 := 0 }

/-- Configuration with the PM sensor disabled. -/
def cfgNoPm : Config :=
  { raspberryid := 7, mac := "b8:27:eb:aa:bb:cc", pm_status := false
    sampling_rate := 5 }

/-- Configuration with the PM sensor enabled. -/
def cfgPm : Config :=
  { raspberryid := 7, mac := "b8:27:eb:aa:bb:cc", pm_status := true
    sampling_rate := 5 }

/-- GPS snapshot before the first fix. -/
def fixNone : Fix :=
  { has_fix := false, timestamp := 0, alt := 0, latitude := 0
    longitude := 0, speed := 0 }

/-- GPS snapshot with a fix. -/
def fixA : Fix :=
  { has_fix := true, timestamp := 100, alt := 250, latitude := 51
    longitude := 7, speed := 10 }

/-- A successful DHT22 reading. -/
def dhtA : DhtReading := { temperature := 21, humidity := 48 }

/-- A DHT22 reading whose raw humidity overshoots 100. -/
def dhtHigh : DhtReading := { temperature := 20, humidity := 150 }

/-- A successful PM reading. -/
def pmA : PmReading := { pm2_5 := 12, pm10 := 30 }

/-- Cycle input without a GPS fix. -/
def envNoFix : CycleEnv := { now := 0, fix := fixNone, dht := some dhtA, pm := none }

/-- Cycle input with a fix and successful DHT22 read. -/
def envFixA : CycleEnv := { now := 1, fix := fixA, dht := some dhtA, pm := some pmA }

/-- Second cycle input with a fix. -/
def envFixB : CycleEnv := { now := 6, fix := fixA, dht := some dhtA, pm := some pmA }

/-- Cycle input with a fix and an overshooting humidity value. -/
def envHighHum : CycleEnv := { now := 0, fix := fixA, dht := some dhtHigh, pm := none }

/-- Cycle input with a fix in which read_dht22 raises. -/
def envDhtFail : CycleEnv := { now := 0, fix := fixA, dht := none, pm := none }

/-- Cycle input with a fix in which read_pm raises. -/
def envPmFail : CycleEnv := { now := 0, fix := fixA, dht := some dhtA, pm := none }

/-- Process state in the middle of a sampling cycle: the GPS thread runs
and the per-cycle file handle of main is open. -/
def midCycleState : ProcState :=
  { gpsRunning := true, gpsJoined := false, moduleF := ModF.closed
    loopFileOpen := true, fileRows := [Row.header] }

lemma cycleStep_no_fix {svp : ℚ → ℚ} {cfg : Config} {cal : Calib} {e : CycleEnv}
    (c : ℕ) (h : e.fix.has_fix = false) :
    cycleStep svp cfg cal e c = some (none, c + 1) := by
  simp [cycleStep, h]

lemma cycleStep_dht_fail {svp : ℚ → ℚ} {cfg : Config} {cal : Calib} {e : CycleEnv}
    (c : ℕ) (hfx : e.fix.has_fix = true) (hdn : e.dht = none) :
    cycleStep svp cfg cal e c = none := by
  simp [cycleStep, hfx, hdn]

lemma cycleStep_pm_fail {svp : ℚ → ℚ} {cfg : Config} {cal : Calib} {e : CycleEnv}
    {d : DhtReading} (c : ℕ) (hfx : e.fix.has_fix = true) (hd : e.dht = some d)
    (hps : cfg.pm_status = true) (hp : e.pm = none) :
    cycleStep svp cfg cal e c = none := by
  simp [cycleStep, hfx, hd, hps, hp]

lemma cycleStep_emit_noPm {svp : ℚ → ℚ} {cfg : Config} {cal : Calib} {e : CycleEnv}
    {d : DhtReading} (c : ℕ) (hps : cfg.pm_status = false)
    (hfx : e.fix.has_fix = true) (hd : e.dht = some d) :
    cycleStep svp cfg cal e c =
      some (some (buildRecord svp cfg cal e d none none c), c + 1) := by
  simp [cycleStep, hfx, hd, hps]

lemma cycleStep_emit_pm {svp : ℚ → ℚ} {cfg : Config} {cal : Calib} {e : CycleEnv}
    {d : DhtReading} {p : PmReading} (c : ℕ) (hps : cfg.pm_status = true)
    (hfx : e.fix.has_fix = true) (hd : e.dht = some d) (hp : e.pm = some p) :
    cycleStep svp cfg cal e c =
      some (some (buildRecord svp cfg cal e d (some p.pm2_5) (some p.pm10) c),
            c + 1) := by
  simp [cycleStep, hfx, hd, hps, hp]

lemma runFrom_cons_skip {svp : ℚ → ℚ} {cfg : Config} {cal : Calib} {e : CycleEnv}
    {c c2 : ℕ} (es : List CycleEnv)
    (h : cycleStep svp cfg cal e c = some (none, c2)) :
    runFrom svp cfg cal (e :: es) c = runFrom svp cfg cal es c2 := by
  simp [runFrom, h]

lemma runFrom_cons_emit {svp : ℚ → ℚ} {cfg : Config} {cal : Calib} {e : CycleEnv}
    {c c2 : ℕ} {r : Record} (es : List CycleEnv)
    (h : cycleStep svp cfg cal e c = some (some r, c2)) :
    runFrom svp cfg cal (e :: es) c = r :: runFrom svp cfg cal es c2 := by
  simp [runFrom, h]

lemma runFrom_skip_preNoFix (svp : ℚ → ℚ) (cfg : Config) (cal : Calib)
    (pre : List CycleEnv) :
    ∀ (l : List CycleEnv) (c : ℕ), (∀ x ∈ pre, x.fix.has_fix = false) →
      runFrom svp cfg cal (pre ++ l) c = runFrom svp cfg cal l (c + pre.length) := by
  induction pre with
  | nil => intro l c _; simp
  | cons x pre ih =>
    intro l c h
    have hx : x.fix.has_fix = false := h x (List.mem_cons_self x pre)
    have hrest : ∀ y ∈ pre, y.fix.has_fix = false :=
      fun y hy => h y (List.mem_cons_of_mem x hy)
    rw [List.cons_append, runFrom_cons_skip (pre ++ l) (cycleStep_no_fix c hx),
        ih l (c + 1) hrest]
    have harith : c + 1 + pre.length = c + (x :: pre).length := by
      simp only [List.length_cons]
      omega
    rw [harith]

lemma runFrom_first_emit (svp : ℚ → ℚ) (cfg : Config) (cal : Calib)
    (pre : List CycleEnv) (e : CycleEnv) (rest : List CycleEnv) (c : ℕ)
    (d : DhtReading)
    (hpre : ∀ y ∈ pre, y.fix.has_fix = false)
    (hfix : e.fix.has_fix = true) (hd : e.dht = some d)
    (hpm : cfg.pm_status = true → ∃ p, e.pm = some p) :
    ∃ pm2_5 pm10 : Option ℚ,
      runFrom svp cfg cal (pre ++ e :: rest) c =
        buildRecord svp cfg cal e d pm2_5 pm10 (c + pre.length) ::
          runFrom svp cfg cal rest (c + pre.length + 1) := by
  rw [runFrom_skip_preNoFix svp cfg cal pre (e :: rest) c hpre]
  cases hps : cfg.pm_status with
  | false =>
    exact ⟨none, none,
      runFrom_cons_emit rest (cycleStep_emit_noPm (c + pre.length) hps hfix hd)⟩
  | true =>
    obtain ⟨p, hp⟩ := hpm hps
    exact ⟨some p.pm2_5, some p.pm10,
      runFrom_cons_emit rest (cycleStep_emit_pm (c + pre.length) hps hfix hd hp)⟩

lemma emitted_record_eq {svp : ℚ → ℚ} {cfg : Config} {cal : Calib} {e : CycleEnv}
    {c c2 : ℕ} {d : DhtReading} {r : Record}
    (hd : e.dht = some d)
    (h : cycleStep svp cfg cal e c = some (some r, c2)) :
    (cfg.pm_status = false ∧ r = buildRecord svp cfg cal e d none none c) ∨
    (∃ p, cfg.pm_status = true ∧ e.pm = some p ∧
      r = buildRecord svp cfg cal e d (some p.pm2_5) (some p.pm10) c) := by
  cases hfx : e.fix.has_fix with
  | false =>
    rw [cycleStep_no_fix c hfx] at h
    simp at h
  | true =>
    cases hps : cfg.pm_status with
    | false =>
      rw [cycleStep_emit_noPm c hps hfx hd] at h
      simp only [Option.some.injEq, Prod.mk.injEq] at h
      exact Or.inl ⟨rfl, h.1.symm⟩
    | true =>
      cases hp : e.pm with
      | none =>
        rw [cycleStep_pm_fail c hfx hd hps hp] at h
        exact absurd h (by simp)
      | some p =>
        rw [cycleStep_emit_pm c hps hfx hd hp] at h
        simp only [Option.some.injEq, Prod.mk.injEq] at h
        exact Or.inr ⟨p, rfl, rfl, h.1.symm⟩

lemma runSink_some (recs : List Record) : ∀ rows : List Row,
    runSink recs (some rows) = some (rows ++ recs.map Row.data) := by
  induction recs with
  | nil => intro rows; simp [runSink]
  | cons r rs ih =>
    intro rows
    have h1 : runSink (r :: rs) (some rows) = runSink rs (some (rows ++ [Row.data r])) := rfl
    rw [h1, ih (rows ++ [Row.data r])]
    simp

lemma countP_data_zero (recs : List Record) :
    (recs.map Row.data).countP isHeaderRow = 0 := by
  induction recs with
  | nil => rfl
  | cons r rs ih => simp [List.countP_cons, isHeaderRow, ih]

/-- C1 counterexample: in the concrete run whose first cycle has no GPS fix
and whose second cycle has one, the first emitted record carries sequence
id 2, not 1, because line 219 increments counter on fixless iterations
too. -/
theorem firstEmittedId_not_one_when_fix_delayed :
    (runMeteobike svp0 cfgNoPm cal0 [envNoFix, envFixA]).map Record.record = [2] ∧
    (2 : ℕ) ≠ 1 :=
  ⟨rfl, by decide⟩

/-- C1 (amended): on cycles that complete, the sequence id increments by
exactly 1; over any stretch of cycles that all have a fix and whose sensor
reads all succeed, the emitted records carry the consecutive ids c, c+1,
..., where c is the counter at the start of the stretch, so the first
emitted id is 1 only when a fix is present from the first cycle on. -/
theorem emitted_ids_consecutive_when_fix_throughout
    (svp : ℚ → ℚ) (cfg : Config) (cal : Calib) (envs : List CycleEnv) (c : ℕ)
    (h : ∀ x ∈ envs, x.fix.has_fix = true ∧ (∃ dx, x.dht = some dx) ∧
          (cfg.pm_status = true → ∃ p, x.pm = some p)) :
    (runFrom svp cfg cal envs c).map Record.record = List.range' c envs.length := by
  induction envs generalizing c with
  | nil => simp [runFrom]
  | cons x xs ih =>
    obtain ⟨hfx, ⟨dx, hdx⟩, hpmx⟩ := h x (List.mem_cons_self x xs)
    have hrest := fun y hy => h y (List.mem_cons_of_mem x hy)
    have hxs := ih (c + 1) hrest
    cases hps : cfg.pm_status with
    | false =>
      rw [runFrom_cons_emit xs (cycleStep_emit_noPm c hps hfx hdx), List.map_cons, hxs]
      rfl
    | true =>
      obtain ⟨p, hpx⟩ := hpmx hps
      rw [runFrom_cons_emit xs (cycleStep_emit_pm c hps hfx hdx hpx), List.map_cons, hxs]
      rfl

/-- Witness for the amended C1 at a concrete two-cycle run. -/
theorem emitted_ids_consecutive_witness :
    (runFrom svp0 cfgNoPm cal0 [envFixA, envFixB] 1).map Record.record =
      List.range' 1 2 :=
  emitted_ids_consecutive_when_fix_throughout svp0 cfgNoPm cal0 [envFixA, envFixB] 1
    (by
      intro x hx
      simp only [List.mem_cons, List.not_mem_nil, or_false] at hx
      rcases hx with rfl | rfl
      · exact ⟨rfl, ⟨dhtA, rfl⟩, fun hb => absurd hb (by decide)⟩
      · exact ⟨rfl, ⟨dhtA, rfl⟩, fun hb => absurd hb (by decide)⟩)

/-- C2: a failed temperature/humidity read does not degrade the fields to
the missing sentinel; it aborts the cycle and the whole loop (modelled as
the crash value none), because line 141 dereferences readings after the
except block.  A failed particulate read with the PM sensor enabled aborts
as well, since line 169 has no handler.  This contradicts the claim and
the code's own except block at lines 137-139, whose nan assignments are
unconditionally overwritten. -/
theorem dht_failure_aborts_run :
    cycleStep svp0 cfgNoPm cal0 envDhtFail 1 = none ∧
    runFrom svp0 cfgNoPm cal0 [envDhtFail, envFixA] 1 = [] ∧
    cycleStep svp0 cfgPm cal0 envPmFail 1 = none :=
  ⟨rfl, rfl, rfl⟩

/-- C3 counterexample: with identity humidity calibration and a raw
humidity of 150, the emitted record stores rel_humidity = 150 > 100; the
clamp at lines 176-177 runs after both humidity fields were computed and
reaches no stored field. -/
theorem stored_humidity_exceeds_100 :
    (cycleStep svp0 cfgNoPm cal0 envHighHum 1).map
        (fun out => out.1.map Record.rel_humidity) = some (some 150) ∧
    ¬ ((150 : ℚ) ≤ 100) := by
  constructor
  · have hstep : cycleStep svp0 cfgNoPm cal0 envHighHum 1 =
        some (some (buildRecord svp0 cfgNoPm cal0 envHighHum dhtHigh none none 1), 2) :=
      cycleStep_emit_noPm 1 rfl rfl rfl
    have h1 : (buildRecord svp0 cfgNoPm cal0 envHighHum dhtHigh none none 1).rel_humidity
        = pround 3 (150 / 1 - 0) := rfl
    rw [hstep]
    simp only [Option.map_some', Option.some.injEq]
    rw [h1]
    norm_num [pround, roundHalfEven]
  · decide

/-- C3 (amended): the stored calibrated humidity of every emitted record
equals round(raw / hum_cal_a1 - hum_cal_a0, 3) without any clamp, and the
stored raw humidity equals round(raw, 5), also unclamped; the clamp at
lines 176-177 rebinds a working variable that no stored field reads. -/
theorem stored_humidity_unclamped
    (svp : ℚ → ℚ) (cfg : Config) (cal : Calib) (e : CycleEnv) (c : ℕ)
    (d : DhtReading) (r : Record) (c2 : ℕ)
    (hd : e.dht = some d)
    (h : cycleStep svp cfg cal e c = some (some r, c2)) :
    r.rel_humidity = pround 3 (d.humidity / cal.hum_cal_a1 - cal.hum_cal_a0) ∧
    r.rel_humidity_raw = pround 5 d.humidity := by
  rcases emitted_record_eq hd h with ⟨_, rfl⟩ | ⟨p, _, _, rfl⟩ <;> exact ⟨rfl, rfl⟩

/-- Witness for the amended C3 at a concrete cycle. -/
theorem stored_humidity_unclamped_witness :
    (buildRecord svp0 cfgNoPm cal0 envFixA dhtA none none 1).rel_humidity =
      pround 3 (dhtA.humidity / cal0.hum_cal_a1 - cal0.hum_cal_a0) ∧
    (buildRecord svp0 cfgNoPm cal0 envFixA dhtA none none 1).rel_humidity_raw =
      pround 5 dhtA.humidity :=
  stored_humidity_unclamped svp0 cfgNoPm cal0 envFixA 1 dhtA
    (buildRecord svp0 cfgNoPm cal0 envFixA dhtA none none 1) 2 rfl rfl

/-- C4: the sleep computed at lines 213-221 equals
max(0, sampling_rate - min(elapsed, sampling_rate)) for all inputs, gives
3 for a 5 second period with 2 seconds elapsed and 0 with 7 seconds
elapsed, and is never negative. -/
theorem sleepDuration_eq_clamped_formula :
    (∀ rate elapsed : ℚ,
        sleepDuration rate elapsed = max 0 (rate - min elapsed rate)) ∧
    sleepDuration 5 2 = 3 ∧ sleepDuration 5 7 = 0 ∧
    (∀ rate elapsed : ℚ, 0 ≤ sleepDuration rate elapsed) := by
  refine ⟨?_, by norm_num [sleepDuration], by norm_num [sleepDuration], ?_⟩
  · intro rate elapsed
    simp only [sleepDuration]
    split_ifs with h
    · rw [min_eq_right h.le]
      simp
    · rw [min_eq_left (not_lt.mp h), max_eq_right (sub_nonneg.mpr (not_lt.mp h))]
  · intro rate elapsed
    simp only [sleepDuration]
    split_ifs with h
    · simp
    · have := not_lt.mp h
      linarith

/-- C5: no cycle without a GPS fix can emit a record, and the first record
of a run whose fixless prefix is followed by a cycle with a fix carries
exactly that cycle's position snapshot (gps_time, altitude, latitude,
longitude). -/
theorem no_emit_without_fix_first_record_position
    (svp : ℚ → ℚ) (cfg : Config) (cal : Calib) (x : CycleEnv) (k kx : ℕ)
    (rx : Record) (pre : List CycleEnv) (e : CycleEnv) (rest : List CycleEnv)
    (c : ℕ) (d : DhtReading)
    (hx : x.fix.has_fix = false)
    (hpre : ∀ y ∈ pre, y.fix.has_fix = false)
    (hfix : e.fix.has_fix = true) (hd : e.dht = some d)
    (hpm : cfg.pm_status = true → ∃ p, e.pm = some p) :
    cycleStep svp cfg cal x k ≠ some (some rx, kx) ∧
    ∃ r tl, runFrom svp cfg cal (pre ++ e :: rest) c = r :: tl ∧
      r.gps_time = e.fix.timestamp ∧ r.altitude = e.fix.alt ∧
      r.latitude = e.fix.latitude ∧ r.longitude = e.fix.longitude := by
  constructor
  · rw [cycleStep_no_fix k hx]
    simp
  · obtain ⟨pm2_5, pm10, hrun⟩ :=
      runFrom_first_emit svp cfg cal pre e rest c d hpre hfix hd hpm
    exact ⟨_, _, hrun, rfl, rfl, rfl, rfl⟩

/-- Witness for C5 at a concrete run with one fixless cycle. -/
theorem no_emit_without_fix_witness :
    cycleStep svp0 cfgNoPm cal0 envNoFix 3 ≠
      some (some (buildRecord svp0 cfgNoPm cal0 envFixA dhtA none none 9), 4) ∧
    ∃ r tl, runFrom svp0 cfgNoPm cal0 ([envNoFix] ++ envFixA :: []) 1 = r :: tl ∧
      r.gps_time = envFixA.fix.timestamp ∧ r.altitude = envFixA.fix.alt ∧
      r.latitude = envFixA.fix.latitude ∧ r.longitude = envFixA.fix.longitude :=
  no_emit_without_fix_first_record_position svp0 cfgNoPm cal0 envNoFix 3 4
    (buildRecord svp0 cfgNoPm cal0 envFixA dhtA none none 9) [envNoFix] envFixA []
    1 dhtA rfl
    (by
      intro y hy
      simp only [List.mem_singleton] at hy
      subst hy
      rfl)
    rfl rfl (fun hb => absurd hb (by decide))

/-- C6: every emitted record stores as temperature the value
round(raw / a1 - a0, 3), stated through the specification-side function
calibrate_temperature, and stores the raw value rounded to 5 decimal
places. -/
theorem temperature_calibration_stored
    (svp : ℚ → ℚ) (cfg : Config) (cal : Calib) (e : CycleEnv) (c : ℕ)
    (d : DhtReading) (r : Record) (c2 : ℕ)
    (ha1 : cal.temperature_cal_a1 ≠ 0)
    (hd : e.dht = some d)
    (h : cycleStep svp cfg cal e c = some (some r, c2)) :
    r.temperature =
      pround 3 (calibrate_temperature d.temperature cal.temperature_cal_a0
        cal.temperature_cal_a1) ∧
    r.temperature_raw = pround 5 d.temperature := by
  rcases emitted_record_eq hd h with ⟨_, rfl⟩ | ⟨p, _, _, rfl⟩ <;> exact ⟨rfl, rfl⟩

/-- Witness for C6 at a concrete cycle with nonzero a1. -/
theorem temperature_calibration_witness :
    (buildRecord svp0 cfgNoPm cal0 envFixA dhtA none none 1).temperature =
      pround 3 (calibrate_temperature dhtA.temperature cal0.temperature_cal_a0
        cal0.temperature_cal_a1) ∧
    (buildRecord svp0 cfgNoPm cal0 envFixA dhtA none none 1).temperature_raw =
      pround 5 dhtA.temperature :=
  temperature_calibration_stored svp0 cfgNoPm cal0 envFixA 1 dhtA
    (buildRecord svp0 cfgNoPm cal0 envFixA dhtA none none 1) 2 (by decide) rfl rfl

/-- C7: starting from any initial state of the log file, the bootstrap of
lines 94-99 followed by one append per emitted record yields exactly the
previous contents (or a single fresh header when the file was absent)
extended by one data row per record in order: the header is written exactly
once and only when the file did not exist, appends never truncate earlier
rows, and the file after a run that started without a file contains exactly
one header line. -/
theorem sink_header_once_append_preserves (init : Option (List Row))
    (recs : List Record) :
    runSink recs (bootstrapFile init) =
      some ((match init with | none => [Row.header] | some rows => rows) ++
        recs.map Row.data) ∧
    ((runSink recs (bootstrapFile none)).getD []).countP isHeaderRow = 1 := by
  constructor
  · cases init with
    | none => exact runSink_some recs [Row.header]
    | some rows => exact runSink_some recs rows
  · show ((runSink recs (some [Row.header])).getD []).countP isHeaderRow = 1
    rw [runSink_some recs [Row.header]]
    simp [List.singleton_append, List.countP_cons, isHeaderRow, countP_data_zero recs]

/-- C8: evaluation of the signal handler at a state captured in the middle
of a sampling cycle.  The handler stops the GPS thread, joins it, swallows
the outcome of closing the module level f, appends nothing to the file and
returns exit status 0 - but loopFileOpen stays true: the per-cycle handle
opened at line 131 is a local variable of main, invisible to the global f
declaration of exit_program, so the sink's current handle is not closed. -/
theorem exit_program_leaves_loop_handle_open :
    exit_program midCycleState =
      ({ gpsRunning := false, gpsJoined := true, moduleF := ModF.closed
         loopFileOpen := true, fileRows := [Row.header] }, 0) :=
  rfl

/-- C9: every completed loop iteration increments the counter by exactly 1
(also fixless iterations, which emit nothing), and a run started with
counter = 1 whose first fix arrives after a fixless prefix emits as its
first record one with sequence id 1 + (length of that prefix). -/
theorem counter_increments_every_iteration_first_id
    (svp : ℚ → ℚ) (cfg : Config) (cal : Calib) (x : CycleEnv) (k : ℕ)
    (out : Option Record × ℕ) (pre : List CycleEnv) (e : CycleEnv)
    (rest : List CycleEnv) (d : DhtReading)
    (hout : cycleStep svp cfg cal x k = some out)
    (hpre : ∀ y ∈ pre, y.fix.has_fix = false)
    (hfix : e.fix.has_fix = true) (hd : e.dht = some d)
    (hpm : cfg.pm_status = true → ∃ p, e.pm = some p) :
    out.2 = k + 1 ∧
    ∃ r tl, runMeteobike svp cfg cal (pre ++ e :: rest) = r :: tl ∧
      r.record = 1 + pre.length := by
  constructor
  · cases hfx : x.fix.has_fix with
    | false =>
      rw [cycleStep_no_fix k hfx] at hout
      injection hout with h1
      rw [← h1]
    | true =>
      cases hdx : x.dht with
      | none =>
        rw [cycleStep_dht_fail k hfx hdx] at hout
        exact absurd hout (by simp)
      | some dx =>
        cases hps : cfg.pm_status with
        | false =>
          rw [cycleStep_emit_noPm k hps hfx hdx] at hout
          injection hout with h1
          rw [← h1]
        | true =>
          cases hpx : x.pm with
          | none =>
            rw [cycleStep_pm_fail k hfx hdx hps hpx] at hout
            exact absurd hout (by simp)
          | some px =>
            rw [cycleStep_emit_pm k hps hfx hdx hpx] at hout
            injection hout with h1
            rw [← h1]
  · obtain ⟨pm2_5, pm10, hrun⟩ :=
      runFrom_first_emit svp cfg cal pre e rest 1 d hpre hfix hd hpm
    exact ⟨_, _, hrun, rfl⟩

/-- Witness for C9 at a concrete run with two fixless cycles. -/
theorem counter_increments_witness :
    ((some (buildRecord svp0 cfgNoPm cal0 envFixA dhtA none none 4), 5) :
        Option Record × ℕ).2 = 4 + 1 ∧
    ∃ r tl, runMeteobike svp0 cfgNoPm cal0 ([envNoFix, envNoFix] ++ envFixA :: []) =
        r :: tl ∧ r.record = 1 + [envNoFix, envNoFix].length :=
  counter_increments_every_iteration_first_id svp0 cfgNoPm cal0 envFixA 4
    (some (buildRecord svp0 cfgNoPm cal0 envFixA dhtA none none 4), 5)
    [envNoFix, envNoFix] envFixA [] dhtA rfl
    (by
      intro y hy
      simp only [List.mem_cons, List.not_mem_nil, or_false] at hy
      rcases hy with rfl | rfl <;> rfl)
    rfl rfl (fun hb => absurd hb (by decide))

/-- C10: every emitted record stores as speed the raw GPS speed multiplied
by 1.852 and rounded to 2 decimal places, line 184 of the source. -/
theorem speed_knots_to_kmh
    (svp : ℚ → ℚ) (cfg : Config) (cal : Calib) (e : CycleEnv) (c : ℕ)
    (d : DhtReading) (r : Record) (c2 : ℕ)
    (hd : e.dht = some d)
    (h : cycleStep svp cfg cal e c = some (some r, c2)) :
    r.speed = pround 2 (e.fix.speed * (1.852 : ℚ)) := by
  rcases emitted_record_eq hd h with ⟨_, rfl⟩ | ⟨p, _, _, rfl⟩ <;> rfl

/-- Witness for C10 at a concrete cycle with the PM sensor enabled. -/
theorem speed_knots_to_kmh_witness :
    (buildRecord svp0 cfgPm cal0 envFixB dhtA (some pmA.pm2_5) (some pmA.pm10)
      1).speed = pround 2 (envFixB.fix.speed * (1.852 : ℚ)) :=
  speed_knots_to_kmh svp0 cfgPm cal0 envFixB 1 dhtA
    (buildRecord svp0 cfgPm cal0 envFixB dhtA (some pmA.pm2_5) (some pmA.pm10) 1)
    2 rfl rfl

end Crowdbike
